import Mathlib

/-!
Shallow embedding of the non-GUI logic of `src/autoclicker.py`: the
click-loop engine (`ClickerEngine`), the hotkey dispatch table
(`HotkeyManager`), and the pieces of `AutoClickerGUI` state that the
verified properties mention (mode, activation flag, numeric-field
parsing).  Numeric quantities (rates, delays, sleep intervals) are
modelled as rationals.
-/

namespace AutoClicker

/-- State of `ClickerEngine` (`__init__`): the `is_clicking` flag, the
`_stop_event` threading event (modelled as a `Bool`, `true` = set) and
the running `click_count`.  The mouse/keyboard controller objects and
the `on_click_callback` field carry no logic-relevant state and are
omitted. -/
structure ClickerEngine where
  is_clicking : Bool
  stop_event : Bool
  click_count : Nat
deriving DecidableEq, Repr

/-- `ClickerEngine.__init__`: created inactive, stop event clear, count 0. -/
def ClickerEngine.init : ClickerEngine :=
  { is_clicking := false, stop_event := false, click_count := 0 }

/-- `ClickerEngine.start_clicking`: if already clicking, return at once;
otherwise set `is_clicking`, clear the stop event and spawn the worker
thread running `click_loop`.  The returned `Bool` records whether a
worker thread was spawned (`self.click_thread = Thread(...); start()`). -/
def ClickerEngine.start_clicking (e : ClickerEngine) (cps delay : ℚ) : ClickerEngine × Bool :=
  if e.is_clicking then (e, false)
  else ({ e with is_clicking := true, stop_event := false }, true)

/-- `ClickerEngine.stop_clicking`: set the stop event and clear
`is_clicking`. -/
def ClickerEngine.stop_clicking (e : ClickerEngine) : ClickerEngine :=
  { e with stop_event := true, is_clicking := false }

/-- `ClickerEngine.reset_click_count`: zero the counter (the GUI callback
it then invokes only reads the counter). -/
def ClickerEngine.reset_click_count (e : ClickerEngine) : ClickerEngine :=
  { e with click_count := 0 }

/-- Phase of the worker `click_loop` inside `start_clicking`: still in
the start-delay polling loop (with its accumulated `elapsed`), in the
repeat (`while not stop`) loop, or exited. -/
inductive LoopPhase where
  | delaying (elapsed : ℚ)
  | repeating
  | done
deriving DecidableEq, Repr

/-- `interval = 1.0 / clicks_per_sec if clicks_per_sec > 0 else 0.1`
(line 96 of `click_loop`). -/
def clickInterval (cps : ℚ) : ℚ :=
  if 0 < cps then 1 / cps else 1 / 10

/-- One iteration of `click_loop`, driven by the observed value `stop` of
`_stop_event.is_set()`.  Returns the next phase, whether a click was
issued this iteration, and the time slept.  In the delay phase the loop
sleeps 0.05 s and advances `elapsed` by 0.05 while `elapsed < delay` and
the stop event is clear; in the repeat phase it checks the stop event
once, and only if clear clicks and sleeps `interval`. -/
def clickLoopStep (delay interval : ℚ) (stop : Bool) : LoopPhase → LoopPhase × Bool × ℚ
  | .delaying e =>
      if e < delay ∧ stop = false then (.delaying (e + 1/20), false, 1/20)
      else (.repeating, false, 0)
  | .repeating =>
      if stop then (.done, false, 0) else (.repeating, true, interval)
  | .done => (.done, false, 0)

/-- Run `n` iterations of `click_loop` with a constant observed value of
the stop event, collecting the per-iteration click flags. -/
def clickLoopRun (delay interval : ℚ) (stop : Bool) : Nat → LoopPhase → List Bool
  | 0, _ => []
  | n + 1, ph =>
      let s := clickLoopStep delay interval stop ph
      s.2.1 :: clickLoopRun delay interval stop n s.1

/-- Python's `str.lower()` (ASCII case folding), used by `HotkeyManager`
to normalize key names: lowercase every character of the string. -/
def pyLower (s : String) : String :=
  String.mk (s.data.map Char.toLower)

/-- Lookup in a Python `dict` modelled as an association list. -/
def dictGet? {C : Type} (k : String) : List (String × C) → Option C
  | [] => none
  | (k', v) :: rest => if k' = k then some v else dictGet? k rest

/-- `d[k] = v` on a Python `dict` modelled as an association list:
replace the existing binding for `k` when present, otherwise append. -/
def dictInsert {C : Type} (k : String) (v : C) : List (String × C) → List (String × C)
  | [] => [(k, v)]
  | (k', v') :: rest =>
      if k' = k then (k, v) :: rest else (k', v') :: dictInsert k v rest

/-- `set.add` on a Python `set` of strings modelled as a duplicate-free
list. -/
def setAdd (x : String) (s : List String) : List String :=
  if s.contains x then s else x :: s

/-- State of `HotkeyManager`: the `callbacks` dict (normalized key name
to handler), the `pressed_keys` set, and the one-shot recording state.
Hotkey handlers are abstract values of type `C`; the recording callback
is an abstract value of type `R`.  The pynput listener objects hold no
dispatch logic and are omitted. -/
structure HotkeyManager (C R : Type) where
  callbacks : List (String × C)
  pressed_keys : List String
  is_recording : Bool
  recording_callback : Option R

/-- `HotkeyManager.__init__`. -/
def HotkeyManager.init (C R : Type) : HotkeyManager C R :=
  { callbacks := [], pressed_keys := [], is_recording := false,
    recording_callback := none }

/-- `HotkeyManager.register_hotkey`: store the handler under the
lowercased key name, replacing any existing binding. -/
def HotkeyManager.register_hotkey {C R : Type} (m : HotkeyManager C R)
    (key_name : String) (cb : C) : HotkeyManager C R :=
  { m with callbacks := dictInsert (pyLower key_name) cb m.callbacks }

/-- `HotkeyManager.start_recording`: arm one-shot recording of the next
key press. -/
def HotkeyManager.start_recording {C R : Type} (m : HotkeyManager C R)
    (cb : R) : HotkeyManager C R :=
  { m with is_recording := true, recording_callback := some cb }

/-- Outcome of delivering one key event: the successor manager state,
the recording callback invoked together with the key name it received
(if any), and the hotkey handler invoked together with the event-type
string it received (if any). -/
structure KeyEventResult (C R : Type) where
  state : HotkeyManager C R
  recorded : Option (R × String)
  dispatched : Option (C × String)

/-- `HotkeyManager._on_key_press`, applied to the key's readable name
(the output of `_key_to_name`, e.g. `"F6"` or `"A"`).  In recording mode
the press is consumed: the flag is cleared, the recording callback gets
the key name, and no hotkey handler runs.  Otherwise the lowercased name
is added to `pressed_keys` and the handler registered under the
lowercased name, if any, is invoked with `"press"`. -/
def HotkeyManager.on_key_press {C R : Type} (m : HotkeyManager C R)
    (key_name : String) : KeyEventResult C R :=
  if m.is_recording then
    { state := { m with is_recording := false },
      recorded := m.recording_callback.map (fun rc => (rc, key_name)),
      dispatched := none }
  else
    { state := { m with pressed_keys := setAdd (pyLower key_name) m.pressed_keys },
      recorded := none,
      dispatched := (dictGet? (pyLower key_name) m.callbacks).map (fun cb => (cb, "press")) }

/-- `HotkeyManager._on_key_release`: remove the lowercased name from
`pressed_keys` and invoke the handler registered under the lowercased
name, if any, with `"release"`.  Release events are not intercepted by
recording mode. -/
def HotkeyManager.on_key_release {C R : Type} (m : HotkeyManager C R)
    (key_name : String) : KeyEventResult C R :=
  { state := { m with pressed_keys := m.pressed_keys.erase (pyLower key_name) },
    recorded := none,
    dispatched := (dictGet? (pyLower key_name) m.callbacks).map (fun cb => (cb, "release")) }

/-- `ClickMode` enumeration. -/
inductive ClickMode where
  | autoclick
  | keybind
  | normal
deriving DecidableEq, Repr

/-- The logic-relevant state of `AutoClickerGUI`: the engine, the current
mode and the mode-enable flag `is_active`.  Widgets, settings dataclasses
and tkinter variables are presentation glue and are omitted. -/
structure AutoClickerGUI where
  engine : ClickerEngine
  current_mode : ClickMode
  is_active : Bool
deriving DecidableEq, Repr

/-- `AutoClickerGUI._on_tab_change`: stop any active clicking, clear the
mode-enable flag, and set `current_mode` from the selected tab index
(0 = autoclick, 1 = keybind, otherwise normal).  Button and status-label
updates are presentation only. -/
def AutoClickerGUI.on_tab_change (g : AutoClickerGUI) (tab_index : Nat) : AutoClickerGUI :=
  { engine := g.engine.stop_clicking,
    is_active := false,
    current_mode :=
      if tab_index = 0 then ClickMode.autoclick
      else if tab_index = 1 then ClickMode.keybind
      else ClickMode.normal }

/-- `AutoClickerGUI._get_float_value`.  The builtin `float(value)` is a
library boundary: its outcome is the parameter `parsed` (`none` when
`float` raises `ValueError` on the input string, `some r` when it
returns the finite value `r`, modelled as a rational).  A non-positive
parse raises `ValueError` inside the `try`, which the `except` catches,
returning the default. -/
def get_float_value (parsed : Option ℚ) (default : ℚ) : ℚ :=
  match parsed with
  | none => default
  | some r => if r ≤ 0 then default else r

/-- With the stop event observed set, no iteration of the click loop
issues a click, in any phase. -/
theorem clickLoopRun_stopped_no_clicks (delay interval : ℚ) :
    ∀ (n : Nat) (ph : LoopPhase),
      (clickLoopRun delay interval true n ph).all (fun c => !c) = true := by
  intro n
  induction n with
  | zero => intro ph; rfl
  | succ k ih =>
      intro ph
      cases ph <;> simp [clickLoopRun, clickLoopStep, ih]

/-- Lookup after a dict insert at the same key returns the new value. -/
theorem dictGet_dictInsert_self {C : Type} (k : String) (v : C) :
    ∀ l : List (String × C), dictGet? k (dictInsert k v l) = some v := by
  intro l
  induction l with
  | nil => simp [dictInsert, dictGet?]
  | cons hd tl ih =>
      obtain ⟨k', v'⟩ := hd
      by_cases hk : k' = k
      · simp [dictInsert, dictGet?, hk]
      · simp [dictInsert, dictGet?, hk, ih]

/-- C1: `stop_clicking` sets the stop signal, and the click loop never
clicks after observing it: with the stop event set, a run of the loop of
any length, from any phase, issues no click; and while the stop event is
clear the delay phase polls it every 0.05 s (sleeping 0.05 s and
advancing `elapsed` by 0.05 per check). -/
theorem stop_observed_never_clicks (e : ClickerEngine) (delay interval el : ℚ)
    (n : Nat) (ph : LoopPhase) (h : el < delay) :
    (e.stop_clicking).stop_event = true
    ∧ (clickLoopRun delay interval true n ph).all (fun c => !c) = true
    ∧ clickLoopStep delay interval false (.delaying el)
        = (.delaying (el + 1/20), false, 1/20) := by
  refine ⟨rfl, clickLoopRun_stopped_no_clicks delay interval n ph, ?_⟩
  simp [clickLoopStep, h]

/-- Witness for C1 at a concrete engine, delay 1, interval 1/10, three
loop iterations from the delay phase. -/
theorem stop_observed_never_clicks_witness :
    (ClickerEngine.init.stop_clicking).stop_event = true
    ∧ (clickLoopRun 1 (1/10) true 3 (LoopPhase.delaying 0)).all (fun c => !c) = true
    ∧ clickLoopStep 1 (1/10) false (.delaying 0)
        = (.delaying (0 + 1/20), false, 1/20) :=
  stop_observed_never_clicks ClickerEngine.init 1 (1/10) 0 3
    (LoopPhase.delaying 0) (by norm_num)

/-- C2: for every positive rate R the period between successive clicks is
exactly 1/R: the computed interval equals 1/R, and a repeat-phase
iteration with the stop event clear issues one click and sleeps 1/R. -/
theorem interval_is_reciprocal_rate (R d : ℚ) (h : 0 < R) :
    clickInterval R = 1 / R
    ∧ clickLoopStep d (clickInterval R) false .repeating = (.repeating, true, 1 / R) := by
  constructor
  · simp [clickInterval, h]
  · simp [clickLoopStep, clickInterval, h]

/-- Witness for C2 at rate 5. -/
theorem interval_is_reciprocal_rate_witness :
    clickInterval 5 = 1 / 5
    ∧ clickLoopStep 0 (clickInterval 5) false .repeating = (.repeating, true, 1 / 5) :=
  interval_is_reciprocal_rate 5 0 (by norm_num)

/-- C3: rebinding replaces the handler: after registering `c1` then `c2`
for the same key, the table maps the normalized key to `c2`; pressing or
releasing any key whose name matches ignoring case invokes `c2`, and the
previously registered `c1` is never invoked. -/
theorem rebind_replaces_handler {C R : Type} (m : HotkeyManager C R)
    (k k' ev : String) (c1 c2 : C)
    (hk : pyLower k' = pyLower k) (hrec : m.is_recording = false) (hne : c1 ≠ c2) :
    dictGet? (pyLower k) ((m.register_hotkey k c1).register_hotkey k c2).callbacks = some c2
    ∧ (((m.register_hotkey k c1).register_hotkey k c2).on_key_press k').dispatched
        = some (c2, "press")
    ∧ (((m.register_hotkey k c1).register_hotkey k c2).on_key_release k').dispatched
        = some (c2, "release")
    ∧ (((m.register_hotkey k c1).register_hotkey k c2).on_key_press k').dispatched
        ≠ some (c1, ev)
    ∧ (((m.register_hotkey k c1).register_hotkey k c2).on_key_release k').dispatched
        ≠ some (c1, ev) := by
  have hget : dictGet? (pyLower k)
      ((m.register_hotkey k c1).register_hotkey k c2).callbacks = some c2 := by
    simp [HotkeyManager.register_hotkey, dictGet_dictInsert_self]
  refine ⟨hget, ?_, ?_, ?_, ?_⟩ <;>
    simp [HotkeyManager.on_key_press, HotkeyManager.on_key_release,
      HotkeyManager.register_hotkey, hrec, hk, dictGet_dictInsert_self,
      Ne.symm hne]

/-- Witness for C3: rebind key "F6" from handler 1 to handler 2, then
press and release "f6". -/
theorem rebind_replaces_handler_witness :
    dictGet? (pyLower "F6")
      (((HotkeyManager.init Nat Unit).register_hotkey "F6" 1).register_hotkey "F6" 2).callbacks
      = some 2
    ∧ ((((HotkeyManager.init Nat Unit).register_hotkey "F6" 1).register_hotkey "F6" 2).on_key_press "f6").dispatched
        = some (2, "press")
    ∧ ((((HotkeyManager.init Nat Unit).register_hotkey "F6" 1).register_hotkey "F6" 2).on_key_release "f6").dispatched
        = some (2, "release")
    ∧ ((((HotkeyManager.init Nat Unit).register_hotkey "F6" 1).register_hotkey "F6" 2).on_key_press "f6").dispatched
        ≠ some (1, "press")
    ∧ ((((HotkeyManager.init Nat Unit).register_hotkey "F6" 1).register_hotkey "F6" 2).on_key_release "f6").dispatched
        ≠ some (1, "press") :=
  rebind_replaces_handler (HotkeyManager.init Nat Unit) "F6" "f6" "press" 1 2
    (by decide) rfl (by decide)

/-- C4: switching tabs stops any active repeating action first: after
`_on_tab_change` the stop signal is set, the engine is not clicking, and
the mode-enable flag is cleared. -/
theorem tab_change_stops_clicking (g : AutoClickerGUI) (tab_index : Nat) :
    (g.on_tab_change tab_index).engine.stop_event = true
    ∧ (g.on_tab_change tab_index).engine.is_clicking = false
    ∧ (g.on_tab_change tab_index).is_active = false :=
  ⟨rfl, rfl, rfl⟩

/-- C5: the numeric-field parser never fails and falls back to the
default: a failed parse yields the default, a non-positive parsed value
yields the default, and a positive parsed value is returned as parsed. -/
theorem get_float_value_total_fallback (d r s : ℚ) (hr : r ≤ 0) (hs : 0 < s) :
    get_float_value none d = d
    ∧ get_float_value (some r) d = d
    ∧ get_float_value (some s) d = s := by
  refine ⟨rfl, ?_, ?_⟩
  · simp [get_float_value, hr]
  · simp [get_float_value, not_le.mpr hs]

/-- Witness for C5: default 10, failed parse, parsed value -3, parsed
value 5/2. -/
theorem get_float_value_total_fallback_witness :
    get_float_value none 10 = 10
    ∧ get_float_value (some (-3)) 10 = 10
    ∧ get_float_value (some (5/2)) 10 = 5/2 :=
  get_float_value_total_fallback 10 (-3) (5/2) (by norm_num) (by norm_num)

/-- C6: click-loop lifecycle: a fresh engine is inactive, `start_clicking`
leaves it active, `stop_clicking` leaves it inactive, and resetting the
click counter (the only other state-changing operation) leaves the
active/inactive flag unchanged. -/
theorem lifecycle_flag (e : ClickerEngine) (cps delay : ℚ) :
    ClickerEngine.init.is_clicking = false
    ∧ (e.start_clicking cps delay).1.is_clicking = true
    ∧ (e.stop_clicking).is_clicking = false
    ∧ (e.reset_click_count).is_clicking = e.is_clicking := by
  refine ⟨rfl, ?_, rfl, rfl⟩
  by_cases h : e.is_clicking <;> simp [ClickerEngine.start_clicking, h]

/-- C7: recording is one-shot: after `start_recording`, the first key
press is delivered to the recording callback with that key's name,
clears the recording flag, and is dispatched to no hotkey handler; the
next key press is dispatched normally from the unchanged hotkey table. -/
theorem recording_is_one_shot {C R : Type} (m : HotkeyManager C R)
    (rc : R) (k1 k2 : String) :
    ((m.start_recording rc).on_key_press k1).recorded = some (rc, k1)
    ∧ ((m.start_recording rc).on_key_press k1).dispatched = none
    ∧ ((m.start_recording rc).on_key_press k1).state.is_recording = false
    ∧ ((((m.start_recording rc).on_key_press k1).state).on_key_press k2).dispatched
        = (dictGet? (pyLower k2) m.callbacks).map (fun cb => (cb, "press")) := by
  refine ⟨?_, ?_, ?_, ?_⟩ <;>
    simp [HotkeyManager.start_recording, HotkeyManager.on_key_press]

/-- C8: the click count is unchanged by `start_clicking` and by
`stop_clicking`, and `reset_click_count` sets it to zero. -/
theorem click_count_persists (e : ClickerEngine) (cps delay : ℚ) :
    (e.start_clicking cps delay).1.click_count = e.click_count
    ∧ (e.stop_clicking).click_count = e.click_count
    ∧ (e.reset_click_count).click_count = 0 := by
  refine ⟨?_, rfl, rfl⟩
  by_cases h : e.is_clicking <;> simp [ClickerEngine.start_clicking, h]

/-- C9: hotkey lookup is case-normalized: a handler registered under any
capitalization of a key name is invoked on press and on release of any
key whose name matches it ignoring case. -/
theorem hotkey_lookup_normalized {C R : Type} (m : HotkeyManager C R)
    (k k' : String) (cb : C)
    (hk : pyLower k' = pyLower k) (hrec : m.is_recording = false) :
    ((m.register_hotkey k cb).on_key_press k').dispatched = some (cb, "press")
    ∧ ((m.register_hotkey k cb).on_key_release k').dispatched = some (cb, "release") := by
  constructor <;>
    simp [HotkeyManager.on_key_press, HotkeyManager.on_key_release,
      HotkeyManager.register_hotkey, hrec, hk, dictGet_dictInsert_self]

/-- Witness for C9: register under "A", press and release "a". -/
theorem hotkey_lookup_normalized_witness :
    (((HotkeyManager.init Nat Unit).register_hotkey "A" 7).on_key_press "a").dispatched
      = some (7, "press")
    ∧ (((HotkeyManager.init Nat Unit).register_hotkey "A" 7).on_key_release "a").dispatched
      = some (7, "release") :=
  hotkey_lookup_normalized (HotkeyManager.init Nat Unit) "A" "a" 7 (by decide) rfl

/-- C10: `start_clicking` on an already-clicking engine is a no-op: the
engine state is unchanged and no worker thread is spawned. -/
theorem start_clicking_noop_when_active (e : ClickerEngine) (cps delay : ℚ)
    (h : e.is_clicking = true) :
    e.start_clicking cps delay = (e, false) := by
  simp [ClickerEngine.start_clicking, h]

/-- Witness for C10: an active engine with 5 recorded clicks. -/
theorem start_clicking_noop_when_active_witness :
    ClickerEngine.start_clicking
        { is_clicking := true, stop_event := false, click_count := 5 } 10 1
      = ({ is_clicking := true, stop_event := false, click_count := 5 }, false) :=
  start_clicking_noop_when_active
    { is_clicking := true, stop_event := false, click_count := 5 } 10 1 rfl

end AutoClicker
